import Mathlib

/-!
Verification of the resilient exchange client (src/api/client.py) and the
concurrent analysis worker (src/analysis/worker.py) of project-bingxv3.

The Python code is embedded shallowly: floating-point clock values and
confidence levels become exact rationals, the per-endpoint timestamp deques
become oldest-first lists of rationals, exceptions become explicit error
values, and the retry loop becomes a fuel-indexed recursion whose fuel is the
`range(max_retries)` iteration count.  Every definition mirrors one function
of the source, named after it.
-/

set_option maxHeartbeats 1000000

namespace BingX

/-! ## Rate limiter (BingXClient._check_rate_limit, src/api/client.py lines 141-168) -/

/-- Sliding-window width in seconds: `self._rate_limit_window = 10`. -/
def rateLimitWindow : ℚ := 10

/-- Per-endpoint limit table `self._rate_limits` with the `.get(endpoint, 5)`
fallback of line 151. -/
def rateLimitFor (endpoint : String) : ℚ :=
  if endpoint = "fetch_ticker" then 3/2
  else if endpoint = "fetch_ohlcv" then 3/2
  else if endpoint = "fetch_markets" then 1/2
  else if endpoint = "fetch_orderbook" then 1
  else if endpoint = "create_order" then 20
  else if endpoint = "cancel_order" then 20
  else if endpoint = "fetch_balance" then 2
  else if endpoint = "fetch_order_status" then 10
  else if endpoint = "fetch_open_orders" then 2
  else 5

/-- Eviction loop `while timestamps and current_time - timestamps[0] > window:
popleft()`.  The deque is modelled as an oldest-first list; the loop stops at
the first entry that is not older than the window. -/
def evictOld (now : ℚ) : List ℚ → List ℚ
  | [] => []
  | t :: rest => if now - t > rateLimitWindow then evictOld now rest else t :: rest

/-- One admission check for an endpoint whose configured limit is `limit`:
evict old entries, compare the occupancy against `limit * window / 10`, in the
over-budget case sleep `window - (now - oldest) + 0.1` seconds and re-evict,
then record the request.  Returns the new deque together with the clock value
at which the request was recorded.  The code reads `timestamps[0]` in the
over-budget branch; `headD 0` stands for that read (the deque is provably
nonempty there whenever the limit is positive). -/
def checkRateLimit (limit : ℚ) (now : ℚ) (ts : List ℚ) : List ℚ × ℚ :=
  let ts1 := evictOld now ts
  if limit * rateLimitWindow / 10 ≤ (ts1.length : ℚ) then
    let oldest := ts1.headD 0
    let waitTime := rateLimitWindow - (now - oldest) + 1/10
    if 0 < waitTime then
      let now2 := now + waitTime
      let ts2 := evictOld now2 ts1
      (ts2 ++ [now2], now2)
    else
      (ts1 ++ [now], now)
  else
    (ts1 ++ [now], now)

/-- A sequence of admission checks against one endpoint's deque: `gaps` lists,
for each call, the delay between the completion of the previous call and the
start of this one.  Returns the final deque and clock. -/
def runCalls (limit : ℚ) : List ℚ → ℚ → List ℚ → List ℚ × ℚ
  | [], now, ts => (ts, now)
  | g :: gaps, now, ts =>
    let r := checkRateLimit limit (now + g) ts
    runCalls limit gaps r.2 r.1

/-! ## Circuit breaker (src/api/client.py lines 47-53 and 170-198) -/

/-- Configured `failure_threshold` (= 3). -/
def failureThreshold : Nat := 3

/-- Configured `recovery_time` in seconds (= 300). -/
def recoveryTime : ℚ := 300

/-- The `self._circuit_breaker` dict: open flag, failure count, time of the
last recorded failure.  The two configured constants live above. -/
structure CircuitBreaker where
  isOpen : Bool
  failureCount : Nat
  lastFailureTime : ℚ
deriving DecidableEq

/-- BingXClient._record_success (lines 185-188): decrement the failure count,
floored at zero, only when it is positive. -/
def recordSuccess (cb : CircuitBreaker) : CircuitBreaker :=
  if 0 < cb.failureCount then
    { cb with failureCount := max 0 (cb.failureCount - 1) }
  else cb

/-- BingXClient._record_failure (lines 190-198): increment the count, stamp
the failure time, and open the breaker once the count reaches the
threshold. -/
def recordFailure (now : ℚ) (cb : CircuitBreaker) : CircuitBreaker :=
  let cb1 : CircuitBreaker :=
    { cb with failureCount := cb.failureCount + 1, lastFailureTime := now }
  if failureThreshold ≤ cb1.failureCount then { cb1 with isOpen := true } else cb1

/-- Outcome of the admission check: proceed with a (possibly recovered)
breaker, or the raised `RateLimitError("Circuit breaker open - retry in Ns")`
carrying the remaining recovery time. -/
inductive BreakerCheck where
  | proceed (cb : CircuitBreaker)
  | openError (remaining : ℚ)
deriving DecidableEq

/-- BingXClient._check_circuit_breaker (lines 170-183): while open, recover
lazily once more than `recovery_time` seconds have passed since the last
failure (resetting the count); otherwise raise with the remaining time. -/
def checkCircuitBreaker (now : ℚ) (cb : CircuitBreaker) : BreakerCheck :=
  if cb.isOpen then
    if recoveryTime < now - cb.lastFailureTime then
      BreakerCheck.proceed { cb with isOpen := false, failureCount := 0 }
    else
      BreakerCheck.openError (recoveryTime - (now - cb.lastFailureTime))
  else BreakerCheck.proceed cb

/-! ## Retry executor (BingXClient._execute_with_retry, lines 200-245) -/

/-- What one invocation of the wrapped operation does, indexed by the attempt
number: return a value, or raise one of the four exception classes the code
distinguishes (ccxt.RateLimitExceeded, ccxt.NetworkError, ccxt.ExchangeError,
or any other Exception). -/
inductive AttemptOutcome (α : Type) where
  | ok (a : α)
  | rateLimited
  | network
  | exchange
  | unexpected
deriving DecidableEq

/-- Errors the wrapper itself raises.  `circuitOpen` is the
`RateLimitError("Circuit breaker open - retry in Ns")` of the admission
check; `rateLimitExceeded` is `RateLimitError("Rate limit exceeded after N
attempts")`; the three others are the `BingXError` wrappings; `loopExhausted`
is the trailing `raise last_exception`, reachable only with zero retries. -/
inductive RetryError where
  | circuitOpen (remaining : ℚ)
  | rateLimitExceeded (attempts : Nat)
  | networkError (attempts : Nat)
  | exchangeError
  | unexpectedError (attempts : Nat)
  | loopExhausted
deriving DecidableEq

/-- Observable trace of one `_execute_with_retry` call: the returned value or
raised error, the breaker state afterwards, how often the operation was
invoked, the backoff sleeps in order, and how often `_record_failure` ran. -/
structure ExecTrace (α : Type) where
  result : Except RetryError α
  cb : CircuitBreaker
  attempts : Nat
  sleeps : List ℚ
  failuresRecorded : Nat

/-- The `for attempt in range(max_retries)` loop.  `fuel` counts the
iterations left, `attempt` the current index; `now` advances by each backoff
sleep; `sleeps`, `fails` and `invs` accumulate the trace. -/
def retryLoop {α : Type} (op : Nat → AttemptOutcome α) (delayFactor : ℚ)
    (maxRetries : Nat) :
    Nat → Nat → ℚ → CircuitBreaker → List ℚ → Nat → Nat → ExecTrace α
  | 0, _, _, cb, sleeps, fails, invs =>
    { result := Except.error RetryError.loopExhausted, cb := cb, attempts := invs,
      sleeps := sleeps, failuresRecorded := fails }
  | fuel + 1, attempt, now, cb, sleeps, fails, invs =>
    match op attempt with
    | AttemptOutcome.ok a =>
      { result := Except.ok a, cb := recordSuccess cb, attempts := invs + 1,
        sleeps := sleeps, failuresRecorded := fails }
    | AttemptOutcome.rateLimited =>
      let cb1 := recordFailure now cb
      if attempt = maxRetries - 1 then
        { result := Except.error (RetryError.rateLimitExceeded maxRetries), cb := cb1,
          attempts := invs + 1, sleeps := sleeps, failuresRecorded := fails + 1 }
      else
        let d := delayFactor * 3 ^ attempt + (attempt : ℚ) * 5
        retryLoop op delayFactor maxRetries fuel (attempt + 1) (now + d) cb1
          (sleeps ++ [d]) (fails + 1) (invs + 1)
    | AttemptOutcome.network =>
      if attempt = maxRetries - 1 then
        { result := Except.error (RetryError.networkError maxRetries), cb := cb,
          attempts := invs + 1, sleeps := sleeps, failuresRecorded := fails }
      else
        let d := delayFactor * 2 ^ attempt
        retryLoop op delayFactor maxRetries fuel (attempt + 1) (now + d) cb
          (sleeps ++ [d]) fails (invs + 1)
    | AttemptOutcome.exchange =>
      { result := Except.error RetryError.exchangeError, cb := cb,
        attempts := invs + 1, sleeps := sleeps, failuresRecorded := fails }
    | AttemptOutcome.unexpected =>
      if attempt = maxRetries - 1 then
        { result := Except.error (RetryError.unexpectedError maxRetries), cb := cb,
          attempts := invs + 1, sleeps := sleeps, failuresRecorded := fails }
      else
        let d := delayFactor * 2 ^ attempt
        retryLoop op delayFactor maxRetries fuel (attempt + 1) (now + d) cb
          (sleeps ++ [d]) fails (invs + 1)

/-- BingXClient._execute_with_retry: consult the circuit breaker, then run the
attempt loop.  The source's defaults are `maxRetries = 5`,
`delayFactor = 2`. -/
def executeWithRetry {α : Type} (op : Nat → AttemptOutcome α) (now : ℚ)
    (cb : CircuitBreaker) (maxRetries : Nat) (delayFactor : ℚ) : ExecTrace α :=
  match checkCircuitBreaker now cb with
  | BreakerCheck.openError remaining =>
    { result := Except.error (RetryError.circuitOpen remaining), cb := cb,
      attempts := 0, sleeps := [], failuresRecorded := 0 }
  | BreakerCheck.proceed cb1 =>
    retryLoop op delayFactor maxRetries maxRetries 0 now cb1 [] 0 0

/-! ## Symbol conversion at the wire boundary (src/api/client.py) -/

/-- Python's single-character `str.replace`, on the character list of the
string. -/
def replaceChar (a b : Char) (s : List Char) : List Char :=
  s.map fun c => if c = a then b else c

/-- The `symbol.replace('/', '-')` conversion to BingX wire format. -/
def toWireSymbol (s : List Char) : List Char := replaceChar '/' '-' s

/-- The inverse conversion, wire format back to the public `BASE/QUOTE`
form. -/
def fromWireSymbol (s : List Char) : List Char := replaceChar '-' '/' s

/-- Symbol handed to `self.exchange.fetch_ticker` (line 305): passed as-is,
`BTC/USDT` format, with no conversion. -/
def fetchTickerWireSymbol (symbol : List Char) : List Char := symbol

/-- Symbol handed to `self.exchange.fetch_ohlcv` (lines 351-353). -/
def fetchOhlcvWireSymbol (symbol : List Char) : List Char := toWireSymbol symbol

/-- Symbol handed to `self.exchange.fetch_order_book` (lines 385-387). -/
def fetchOrderbookWireSymbol (symbol : List Char) : List Char := toWireSymbol symbol

/-- Symbol handed to `self.exchange.create_market_order` (lines 445-448). -/
def createMarketOrderWireSymbol (symbol : List Char) : List Char := toWireSymbol symbol

/-- Symbol handed to `self.exchange.create_limit_order` (lines 494-497). -/
def createLimitOrderWireSymbol (symbol : List Char) : List Char := toWireSymbol symbol

/-- Symbol handed to `self.exchange.create_order` for stop losses
(lines 548-551). -/
def createStopLossOrderWireSymbol (symbol : List Char) : List Char := toWireSymbol symbol

/-- Symbol handed to `self.exchange.cancel_order` (lines 582-584). -/
def cancelOrderWireSymbol (symbol : List Char) : List Char := toWireSymbol symbol

/-- Symbol handed to `self.exchange.fetch_order` (lines 604-606). -/
def fetchOrderWireSymbol (symbol : List Char) : List Char := toWireSymbol symbol

/-- Symbol handed to `self.exchange.fetch_open_orders` (line 642): converted
when present. -/
def fetchOpenOrdersWireSymbol (symbol : Option (List Char)) : Option (List Char) :=
  symbol.map toWireSymbol

/-! ## Analysis worker (src/analysis/worker.py) -/

/-- SignalType values of analysis.signals (buy / sell / neutral). -/
inductive SignalType where
  | buy
  | sell
  | neutral
deriving DecidableEq

/-- The signal dict as the worker reads it: `get('signal_type', NEUTRAL)` and
`get('confidence', 0)` are the only accesses that steer control flow, so the
model carries exactly those two values (with the dict's defaults already
applied). -/
structure SignalData where
  signalType : SignalType
  confidence : ℚ
deriving DecidableEq

/-- The `self.analysis_stats` counters of AnalysisWorker.__init__
(lines 57-65). -/
structure AnalysisStats where
  totalAnalyses : Nat
  successfulAnalyses : Nat
  failedAnalyses : Nat
  signalsGenerated : Nat
  lastAnalysisTime : Option ℚ
  averageAnalysisTime : ℚ
deriving DecidableEq

/-- Initial statistics: all counters zero, no last analysis time. -/
def initialStats : AnalysisStats :=
  { totalAnalyses := 0, successfulAnalyses := 0, failedAnalyses := 0,
    signalsGenerated := 0, lastAnalysisTime := none, averageAnalysisTime := 0 }

/-- One per-asset analysis result dict.  `assetId` is optional because the
on-demand error dict (worker.py lines 561-565) omits the `asset_id` key;
`duration` is optional because the cycle-level error dict (lines 214-219)
omits the duration key. -/
structure AnalysisRecord where
  symbol : String
  assetId : Option String
  timestamp : ℚ
  duration : Option ℚ
  signal : Option SignalData
  error : Option String
deriving DecidableEq

/-- An asset handed to the fan-out: `{'symbol': ..., 'id': ...}`
(worker.py line 190). -/
structure AssetRef where
  symbol : String
  id : String
deriving DecidableEq

/-- Exponential smoothing of average_analysis_time (worker.py lines 280-286):
seeded on the first sample, then `avg * 0.9 + duration * 0.1`. -/
def updateAverage (avg duration : ℚ) : ℚ :=
  if avg = 0 then duration else avg * (9/10) + duration * (1/10)

/-- AnalysisWorker._analyze_single_asset (lines 225-315).  `body` stands for
the try block up to signal generation: `Except.ok sig` when it completes
(yielding the generated signal dict), `Except.error e` when it raises.  On
success the total/successful counters, last analysis time, smoothed average,
and conditionally the signal counter are updated and a success dict is
returned; on failure total/failed are updated and an error dict is
returned. -/
def analyzeSingleAsset (symbol assetId : String) (now duration : ℚ)
    (stats : AnalysisStats) (body : Except String SignalData) :
    AnalysisStats × AnalysisRecord :=
  match body with
  | Except.ok sig =>
    let stats1 : AnalysisStats :=
      { stats with
        totalAnalyses := stats.totalAnalyses + 1
        successfulAnalyses := stats.successfulAnalyses + 1
        lastAnalysisTime := some now
        averageAnalysisTime := updateAverage stats.averageAnalysisTime duration }
    let stats2 : AnalysisStats :=
      if sig.signalType ≠ SignalType.neutral ∧ 2/5 ≤ sig.confidence then
        { stats1 with signalsGenerated := stats1.signalsGenerated + 1 }
      else stats1
    (stats2,
      { symbol := symbol, assetId := some assetId, timestamp := now,
        duration := some duration, signal := some sig, error := none })
  | Except.error e =>
    ({ stats with
        totalAnalyses := stats.totalAnalyses + 1
        failedAnalyses := stats.failedAnalyses + 1 },
      { symbol := symbol, assetId := some assetId, timestamp := now,
        duration := some duration, signal := none, error := some e })

/-- AnalysisWorker._analyze_all_assets (lines 196-223): fan out one task per
asset, gather with `return_exceptions=True`, and convert each raised
exception into an error-tagged dict carrying the matching asset's symbol and
id.  `run` is the per-asset task: `Except.error e` models a raised
exception. -/
def analyzeAllAssets (now : ℚ) (assets : List AssetRef)
    (run : AssetRef → Except String AnalysisRecord) : List AnalysisRecord :=
  assets.map fun a =>
    match run a with
    | Except.ok r => r
    | Except.error e =>
      { symbol := a.symbol, assetId := some a.id, timestamp := now,
        duration := none, signal := none, error := some e }

/-- The spot-timeframe indicator values the test-mode forcing branch reads:
`indicators_spot.get('mm1', 0)` and `.get('center', 0)` (worker.py
lines 421-423), with the dict defaults already applied. -/
structure SpotIndicators where
  mm1 : ℚ
  center : ℚ
deriving DecidableEq

/-- How often the persistence step invoked `signal_repo.create_signal` and
`connection_manager.broadcast`. -/
structure PersistEffect where
  signalsCreated : Nat
  broadcasts : Nat
deriving DecidableEq

/-- The signal-adjustment prologue of _persist_analysis_result
(worker.py lines 409-450): outside test mode the threshold is 0.3 and the
signal passes through untouched; in test mode the threshold drops to 0.1, a
neutral signal may be forced to BUY/SELL (confidence 0.8) from the spot
MM1/Center position, and any positive confidence is boosted by 0.3, capped at
0.95.  Returns the signal as finally compared, with the threshold. -/
def persistSignalStep (testMode forceSignals indicatorsNonempty : Bool)
    (spot : SpotIndicators) (signal0 : SignalData) : SignalData × ℚ :=
  if testMode then
    let signal1 : SignalData :=
      if signal0.signalType = SignalType.neutral then
        if forceSignals ∧ indicatorsNonempty then
          if spot.mm1 ≠ 0 ∧ spot.center ≠ 0 then
            if spot.center < spot.mm1 then
              { signalType := SignalType.buy, confidence := 4/5 }
            else
              { signalType := SignalType.sell, confidence := 4/5 }
          else signal0
        else signal0
      else signal0
    let signal2 : SignalData :=
      if 0 < signal1.confidence then
        { signal1 with confidence := min (19/20) (signal1.confidence + 3/10) }
      else signal1
    (signal2, 1/10)
  else (signal0, 3/10)

/-- The signal branch of AnalysisWorker._persist_analysis_result
(lines 406-498): after the test-mode prologue, a non-neutral signal whose
confidence meets the threshold is stored once and broadcast once; everything
else is dropped.  The repository and broadcast collaborators are modelled as
succeeding. -/
def persistAnalysisResult (testMode forceSignals indicatorsNonempty : Bool)
    (spot : SpotIndicators) (signal0 : SignalData) : PersistEffect :=
  let r := persistSignalStep testMode forceSignals indicatorsNonempty spot signal0
  if r.1.signalType ≠ SignalType.neutral ∧ r.2 ≤ r.1.confidence then
    { signalsCreated := 1, broadcasts := 1 }
  else
    { signalsCreated := 0, broadcasts := 0 }

/-- The try block of AnalysisWorker.analyze_specific_symbol (lines 539-557):
look the asset up (raising `AnalysisWorkerError` when missing), run the
single-asset analysis, and, when the result carries no truthy error value
(Python's `if not result.get('error')`), run the persistence step, which may
itself raise (`persist = Except.error e`).  Returns the statistics as mutated
so far together with the block's outcome. -/
def analyzeSpecificSymbolTry (symbol : String) (now duration : ℚ)
    (lookup : Option String) (stats : AnalysisStats)
    (body : Except String SignalData) (persist : Except String Unit) :
    AnalysisStats × Except String AnalysisRecord :=
  match lookup with
  | none => (stats, Except.error ("Asset " ++ symbol ++ " not found in database"))
  | some assetId =>
    let r := analyzeSingleAsset symbol assetId now duration stats body
    if r.2.error.getD "" = "" then
      match persist with
      | Except.ok _ => (r.1, Except.ok r.2)
      | Except.error e => (r.1, Except.error e)
    else (r.1, Except.ok r.2)

/-- AnalysisWorker.analyze_specific_symbol (lines 537-565): the outer
`except Exception` converts any raise from the try block into the
`{'symbol', 'timestamp', 'error'}` dict instead of propagating. -/
def analyzeSpecificSymbol (symbol : String) (now duration : ℚ)
    (lookup : Option String) (stats : AnalysisStats)
    (body : Except String SignalData) (persist : Except String Unit) :
    AnalysisStats × AnalysisRecord :=
  let r := analyzeSpecificSymbolTry symbol now duration lookup stats body persist
  match r.2 with
  | Except.ok rec2 => (r.1, rec2)
  | Except.error e =>
    (r.1, { symbol := symbol, assetId := none, timestamp := now,
            duration := none, signal := none, error := some e })

/-! ## Helper lemmas -/

/-- Eviction only removes entries. -/
theorem evictOld_length_le (now : ℚ) (ts : List ℚ) :
    (evictOld now ts).length ≤ ts.length := by
  induction ts with
  | nil => simp [evictOld]
  | cons t rest ih =>
    by_cases h : now - t > rateLimitWindow
    · simp only [evictOld, if_pos h]
      exact Nat.le_succ_of_le ih
    · simp [evictOld, if_neg h]

/-- The head surviving eviction is at most one window old. -/
theorem evictOld_head_recent (now : ℚ) (ts : List ℚ) (t : ℚ) (rest : List ℚ)
    (h : evictOld now ts = t :: rest) : now - t ≤ rateLimitWindow := by
  induction ts with
  | nil => simp [evictOld] at h
  | cons a as ih =>
    by_cases ha : now - a > rateLimitWindow
    · rw [evictOld, if_pos ha] at h
      exact ih h
    · rw [evictOld, if_neg ha] at h
      injection h with h1 _
      subst h1
      exact le_of_not_lt ha

/-- Eviction drops an over-age head entry. -/
theorem evictOld_cons_of_old (now t : ℚ) (rest : List ℚ)
    (h : now - t > rateLimitWindow) :
    evictOld now (t :: rest) = evictOld now rest := by
  rw [evictOld, if_pos h]

/-- Every configured (or fallback) per-endpoint limit is positive. -/
theorem rateLimitFor_pos (endpoint : String) : 0 < rateLimitFor endpoint := by
  unfold rateLimitFor
  split_ifs <;> norm_num

/-- One admission check preserves the occupancy bound: afterwards the deque
holds strictly fewer than `budget + 1` entries. -/
theorem checkRateLimit_length_lt (limit now : ℚ) (ts : List ℚ) (hl : 0 < limit)
    (h : (ts.length : ℚ) < limit * rateLimitWindow / 10 + 1) :
    (((checkRateLimit limit now ts).1).length : ℚ)
      < limit * rateLimitWindow / 10 + 1 := by
  have hB : limit * rateLimitWindow / 10 = limit := by
    norm_num [rateLimitWindow]
  have hlen1 : (evictOld now ts).length ≤ ts.length := evictOld_length_le now ts
  simp only [checkRateLimit]
  split_ifs with hc hw
  · -- over budget, wait performed
    have hpos : 0 < (evictOld now ts).length := by
      rw [hB] at hc
      exact_mod_cast lt_of_lt_of_le hl hc
    obtain ⟨t, rest, hcons⟩ : ∃ t rest, evictOld now ts = t :: rest := by
      cases hx : evictOld now ts with
      | nil => rw [hx] at hpos; simp at hpos
      | cons t rest => exact ⟨t, rest, rfl⟩
    rw [hcons]
    simp only [List.headD_cons]
    have hrec : now - t ≤ rateLimitWindow := evictOld_head_recent now ts t rest hcons
    have hdrop :
        evictOld (now + (rateLimitWindow - (now - t) + 1/10)) (t :: rest)
          = evictOld (now + (rateLimitWindow - (now - t) + 1/10)) rest := by
      apply evictOld_cons_of_old
      linarith
    rw [hdrop]
    have h2 : (evictOld (now + (rateLimitWindow - (now - t) + 1/10)) rest).length
        ≤ rest.length :=
      evictOld_length_le _ rest
    have h3 : rest.length + 1 ≤ ts.length := by
      have := hlen1
      rw [hcons] at this
      simpa using this
    simp only [List.length_append, List.length_cons, List.length_nil]
    have hcast : ((evictOld (now + (rateLimitWindow - (now - t) + 1/10)) rest).length : ℚ)
        + 1 ≤ (ts.length : ℚ) := by
      exact_mod_cast le_trans (Nat.add_le_add_right h2 1) h3
    push_cast
    linarith
  · -- over budget but no positive wait: impossible after eviction
    exfalso
    have hpos : 0 < (evictOld now ts).length := by
      rw [hB] at hc
      exact_mod_cast lt_of_lt_of_le hl hc
    obtain ⟨t, rest, hcons⟩ : ∃ t rest, evictOld now ts = t :: rest := by
      cases hx : evictOld now ts with
      | nil => rw [hx] at hpos; simp at hpos
      | cons t rest => exact ⟨t, rest, rfl⟩
    rw [hcons] at hw
    simp only [List.headD_cons] at hw
    have hrec : now - t ≤ rateLimitWindow := evictOld_head_recent now ts t rest hcons
    apply hw
    linarith
  · -- under budget: record directly
    push_neg at hc
    simp only [List.length_append, List.length_cons, List.length_nil]
    push_cast
    linarith

/-- The invocation counter of the retry loop only grows. -/
theorem retryLoop_le_attempts {α : Type} (op : Nat → AttemptOutcome α)
    (df : ℚ) (mr : Nat) :
    ∀ (fuel attempt : Nat) (now : ℚ) (cb : CircuitBreaker) (sleeps : List ℚ)
      (fails invs : Nat),
      invs ≤ (retryLoop op df mr fuel attempt now cb sleeps fails invs).attempts := by
  intro fuel
  induction fuel with
  | zero => intro attempt now cb sleeps fails invs; simp [retryLoop]
  | succ n ih =>
    intro attempt now cb sleeps fails invs
    simp only [retryLoop]
    cases hop : op attempt with
    | ok a => simp
    | rateLimited =>
      split_ifs with hlast
      · simp
      · exact le_trans (Nat.le_succ invs) (ih _ _ _ _ _ _)
    | network =>
      split_ifs with hlast
      · simp
      · exact le_trans (Nat.le_succ invs) (ih _ _ _ _ _ _)
    | exchange => simp
    | unexpected =>
      split_ifs with hlast
      · simp
      · exact le_trans (Nat.le_succ invs) (ih _ _ _ _ _ _)

/-- Recording a failure increments the count by exactly one, open or not. -/
theorem recordFailure_failureCount (now : ℚ) (cb : CircuitBreaker) :
    (recordFailure now cb).failureCount = cb.failureCount + 1 := by
  simp only [recordFailure]
  split_ifs <;> rfl

/-- Any run of admission checks preserves the occupancy bound. -/
theorem runCalls_length_lt (limit : ℚ) (gaps : List ℚ) (now : ℚ) (ts : List ℚ)
    (hl : 0 < limit)
    (h : (ts.length : ℚ) < limit * rateLimitWindow / 10 + 1) :
    (((runCalls limit gaps now ts).1).length : ℚ)
      < limit * rateLimitWindow / 10 + 1 := by
  induction gaps generalizing now ts with
  | nil => simpa [runCalls] using h
  | cons g gaps ih =>
    simp only [runCalls]
    exact ih _ _ (checkRateLimit_length_lt limit (now + g) ts hl h)

/-! ## Claim theorems -/

/-- C1, counterexample: on the `fetch_ticker` endpoint, whose configured limit
scaled to the 10-second window is 1.5, two back-to-back admission checks (the
second 0.5 s after the first) both record their request; both recorded
timestamps lie inside one trailing 10-second interval (their span up to the
final clock is at most the window), so the window holds 2 requests, which
exceeds the configured budget of 1.5.  The claim's bound "never exceeds the
configured budget" is therefore false as stated. -/
theorem c1_counterexample :
    (runCalls (rateLimitFor "fetch_ticker") [0, 1/2] 0 []).1.length = 2
    ∧ (runCalls (rateLimitFor "fetch_ticker") [0, 1/2] 0 []).2
        - (runCalls (rateLimitFor "fetch_ticker") [0, 1/2] 0 []).1.headD 0
        ≤ rateLimitWindow
    ∧ ¬ (((runCalls (rateLimitFor "fetch_ticker") [0, 1/2] 0 []).1.length : ℚ)
        ≤ rateLimitFor "fetch_ticker" * rateLimitWindow / 10) := by
  norm_num [runCalls, checkRateLimit, evictOld, rateLimitFor, rateLimitWindow]

/-- C1 (amended): for every endpoint (configured or fallback) and every
sequence of admission checks starting from an empty window, the number of
requests recorded in the endpoint's window stays strictly below budget + 1,
i.e. never exceeds the budget rounded up to the next integer — including
immediately after a blocking wait completes and the request is recorded
(every intermediate state is the final state of a prefix of the call
sequence).  For integer budgets this is exactly the claimed bound; for
fractional budgets such as fetch_ticker's 1.5 the count can reach 2. -/
theorem c1_window_occupancy_bound (endpoint : String) (gaps : List ℚ) (now : ℚ) :
    (((runCalls (rateLimitFor endpoint) gaps now []).1).length : ℚ)
      < rateLimitFor endpoint * rateLimitWindow / 10 + 1 := by
  have hl := rateLimitFor_pos endpoint
  apply runCalls_length_lt _ _ _ _ hl
  have hB : rateLimitFor endpoint * rateLimitWindow / 10 = rateLimitFor endpoint := by
    norm_num [rateLimitWindow]
  rw [hB]
  simpa using by linarith

/-- When the admission check lets execution proceed and at least one retry is
budgeted, the operation is invoked at least once. -/
theorem executeWithRetry_one_attempt {α : Type} (op : Nat → AttemptOutcome α)
    (now : ℚ) (cb cb1 : CircuitBreaker) (mr : Nat) (df : ℚ)
    (h : checkCircuitBreaker now cb = BreakerCheck.proceed cb1) (hmr : 0 < mr) :
    1 ≤ (executeWithRetry op now cb mr df).attempts := by
  simp only [executeWithRetry, h]
  obtain ⟨k, rfl⟩ : ∃ k, mr = k + 1 := ⟨mr - 1, by omega⟩
  rw [retryLoop]
  cases hop : op 0 with
  | ok a => simp
  | exchange => simp
  | rateLimited =>
    split_ifs with hlast
    · simp
    · exact retryLoop_le_attempts op df (k + 1) k (0 + 1) _ _ _ (0 + 1) (0 + 1)
  | network =>
    split_ifs with hlast
    · simp
    · exact retryLoop_le_attempts op df (k + 1) k (0 + 1) _ _ _ 0 (0 + 1)
  | unexpected =>
    split_ifs with hlast
    · simp
    · exact retryLoop_le_attempts op df (k + 1) k (0 + 1) _ _ _ 0 (0 + 1)

/-- C2: the breaker transitions Closed to Open exactly when a failure record
pushes the count to the threshold (3) — success records and admission checks
never open it; while Open with at most the 300 s recovery timeout elapsed
since the last failure, every admission check raises the breaker-open
rate-limit error carrying the remaining recovery time, the operation is
never invoked and the state is untouched; once more than the timeout has
elapsed, the next admission check resets the count to 0, closes the breaker
and lets the loop make at least one real attempt. -/
theorem c2_circuit_breaker_state_machine {α : Type} (cb : CircuitBreaker)
    (now : ℚ) (op : Nat → AttemptOutcome α) :
    (cb.isOpen = false →
      (((recordFailure now cb).isOpen = true) ↔ failureThreshold ≤ cb.failureCount + 1)
      ∧ (recordSuccess cb).isOpen = false
      ∧ checkCircuitBreaker now cb = BreakerCheck.proceed cb)
    ∧ (cb.isOpen = true → now - cb.lastFailureTime ≤ recoveryTime →
      (executeWithRetry op now cb 5 2).result
          = Except.error (RetryError.circuitOpen (recoveryTime - (now - cb.lastFailureTime)))
      ∧ (executeWithRetry op now cb 5 2).attempts = 0
      ∧ (executeWithRetry op now cb 5 2).cb = cb)
    ∧ (cb.isOpen = true → recoveryTime < now - cb.lastFailureTime →
      checkCircuitBreaker now cb
          = BreakerCheck.proceed { cb with isOpen := false, failureCount := 0 }
      ∧ 1 ≤ (executeWithRetry op now cb 5 2).attempts) := by
  refine ⟨?_, ?_, ?_⟩
  · intro hclosed
    refine ⟨?_, ?_, ?_⟩
    · simp only [recordFailure]
      split_ifs with h
      · simpa using h
      · simp [hclosed]
        omega
    · simp only [recordSuccess]
      split_ifs <;> simp [hclosed]
    · simp [checkCircuitBreaker, hclosed]
  · intro hopen hle
    have hcheck : checkCircuitBreaker now cb
        = BreakerCheck.openError (recoveryTime - (now - cb.lastFailureTime)) := by
      simp [checkCircuitBreaker, hopen, not_lt.mpr hle]
    refine ⟨?_, ?_, ?_⟩ <;> simp [executeWithRetry, hcheck]
  · intro hopen hlt
    have hcheck : checkCircuitBreaker now cb
        = BreakerCheck.proceed { cb with isOpen := false, failureCount := 0 } := by
      simp [checkCircuitBreaker, hopen, hlt]
    constructor
    · exact hcheck
    · exact executeWithRetry_one_attempt op now cb _ 5 2 hcheck (by norm_num)

/-- C2 witness: an open breaker (3 failures, last at time 0) checked at time
100 rejects with 200 s remaining and performs zero attempts. -/
theorem c2_witness :
    (executeWithRetry (fun _ => AttemptOutcome.ok ()) 100
        { isOpen := true, failureCount := 3, lastFailureTime := 0 } 5 2).attempts = 0
    ∧ (executeWithRetry (fun _ => AttemptOutcome.ok ()) 100
        { isOpen := true, failureCount := 3, lastFailureTime := 0 } 5 2).result
      = Except.error (RetryError.circuitOpen (recoveryTime - (100 - 0))) := by
  have h := (c2_circuit_breaker_state_machine
      { isOpen := true, failureCount := 3, lastFailureTime := 0 } 100
      (fun _ => AttemptOutcome.ok ())).2.1 rfl (by norm_num [recoveryTime])
  exact ⟨h.2.1, h.1⟩

/-- C3: when every attempt raises the rate-limit exception and the admission
check lets execution proceed, the operation is invoked exactly 5 times (the
default maxRetries, so at most 5), every failed attempt records a breaker
failure (5 recordings, count up by 5), the backoff slept before retry i is
baseDelay * 3^i + i*5 (strictly increasing), and the final attempt raises the
wrapper's rate-limit-exceeded error. -/
theorem c3_rate_limit_retry_schedule {α : Type} (op : Nat → AttemptOutcome α)
    (now : ℚ) (cb cb1 : CircuitBreaker)
    (hop : ∀ i, op i = AttemptOutcome.rateLimited)
    (hcb : checkCircuitBreaker now cb = BreakerCheck.proceed cb1) :
    (executeWithRetry op now cb 5 2).attempts = 5
    ∧ (executeWithRetry op now cb 5 2).attempts ≤ 5
    ∧ (executeWithRetry op now cb 5 2).failuresRecorded = 5
    ∧ (executeWithRetry op now cb 5 2).cb.failureCount = cb1.failureCount + 5
    ∧ (executeWithRetry op now cb 5 2).sleeps
        = [2 * 3 ^ 0 + 0 * 5, 2 * 3 ^ 1 + 1 * 5, 2 * 3 ^ 2 + 2 * 5, 2 * 3 ^ 3 + 3 * 5]
    ∧ List.Chain' (fun a b => a < b) (executeWithRetry op now cb 5 2).sleeps
    ∧ (executeWithRetry op now cb 5 2).result
        = Except.error (RetryError.rateLimitExceeded 5) := by
  refine ⟨?_, ?_, ?_, ?_, ?_, ?_, ?_⟩ <;>
    · simp [executeWithRetry, hcb, retryLoop, hop, recordFailure_failureCount,
        List.chain'_cons]
      try norm_num

/-- C3 witness: with a closed breaker at time 0 and an operation that is rate
limited on every attempt, the trace shows 5 invocations and 5 recorded
failures. -/
theorem c3_witness :
    (executeWithRetry (fun _ => (AttemptOutcome.rateLimited : AttemptOutcome Unit))
        0 { isOpen := false, failureCount := 0, lastFailureTime := 0 } 5 2).attempts = 5
    ∧ (executeWithRetry (fun _ => (AttemptOutcome.rateLimited : AttemptOutcome Unit))
        0 { isOpen := false, failureCount := 0, lastFailureTime := 0 } 5 2).failuresRecorded
      = 5 :=
  have h := c3_rate_limit_retry_schedule
    (fun _ => (AttemptOutcome.rateLimited : AttemptOutcome Unit)) 0
    { isOpen := false, failureCount := 0, lastFailureTime := 0 }
    { isOpen := false, failureCount := 0, lastFailureTime := 0 }
    (fun _ => rfl) rfl
  ⟨h.1, h.2.2.1⟩

/-- C4, counterexample: with the breaker open since time 0 and 3 failures
recorded, an execution at time 301 (recovery elapsed) in which the operation
raises a permanent exchange error invokes the operation once and surfaces the
wrapped error, but the circuit breaker state IS changed by that execution:
the admission check's lazy recovery reset closes it and zeroes the count, so
the claim's "state unchanged" is false as stated. -/
theorem c4_counterexample :
    (executeWithRetry (fun _ => (AttemptOutcome.exchange : AttemptOutcome Unit)) 301
        { isOpen := true, failureCount := 3, lastFailureTime := 0 } 5 2).attempts = 1
    ∧ (executeWithRetry (fun _ => (AttemptOutcome.exchange : AttemptOutcome Unit)) 301
        { isOpen := true, failureCount := 3, lastFailureTime := 0 } 5 2).result
      = Except.error RetryError.exchangeError
    ∧ (executeWithRetry (fun _ => (AttemptOutcome.exchange : AttemptOutcome Unit)) 301
        { isOpen := true, failureCount := 3, lastFailureTime := 0 } 5 2).cb
      ≠ { isOpen := true, failureCount := 3, lastFailureTime := 0 } := by
  norm_num [executeWithRetry, checkCircuitBreaker, retryLoop, recoveryTime]

/-- C4 (amended): when the operation raises a permanent exchange error and the
breaker was not open at entry (so the admission check performs no lazy
recovery reset), the operation is invoked exactly once, the error is surfaced
immediately as the wrapped exchange error, no backoff is slept, and the
breaker state (isOpen, failureCount, lastFailureTime) is unchanged — neither
a failure nor a success is recorded. -/
theorem c4_exchange_error_single_attempt {α : Type} (op : Nat → AttemptOutcome α)
    (now : ℚ) (cb : CircuitBreaker)
    (hop : ∀ i, op i = AttemptOutcome.exchange) (hclosed : cb.isOpen = false) :
    (executeWithRetry op now cb 5 2).attempts = 1
    ∧ (executeWithRetry op now cb 5 2).result = Except.error RetryError.exchangeError
    ∧ (executeWithRetry op now cb 5 2).cb = cb
    ∧ (executeWithRetry op now cb 5 2).failuresRecorded = 0
    ∧ (executeWithRetry op now cb 5 2).sleeps = [] := by
  refine ⟨?_, ?_, ?_, ?_, ?_⟩ <;>
    simp [executeWithRetry, checkCircuitBreaker, hclosed, retryLoop, hop]

/-- C4 witness: a closed breaker with one historical failure is untouched by a
single-attempt exchange-error execution. -/
theorem c4_witness :
    (executeWithRetry (fun _ => (AttemptOutcome.exchange : AttemptOutcome Unit)) 7
        { isOpen := false, failureCount := 1, lastFailureTime := 2 } 5 2).attempts = 1
    ∧ (executeWithRetry (fun _ => (AttemptOutcome.exchange : AttemptOutcome Unit)) 7
        { isOpen := false, failureCount := 1, lastFailureTime := 2 } 5 2).cb
      = { isOpen := false, failureCount := 1, lastFailureTime := 2 } :=
  have h := c4_exchange_error_single_attempt
    (fun _ => (AttemptOutcome.exchange : AttemptOutcome Unit)) 7
    { isOpen := false, failureCount := 1, lastFailureTime := 2 } (fun _ => rfl) rfl
  ⟨h.1, h.2.2.1⟩

/-- C5, counterexample: with a closed breaker and an operation raising an
unexpected (generic) error on every attempt, the trace records ZERO breaker
failures — the generic handler never calls _record_failure — refuting the
claim that such failures are recorded against the circuit breaker.  The
retry part does happen: 5 invocations with sleeps 2*2^i. -/
theorem c5_counterexample :
    (executeWithRetry (fun _ => (AttemptOutcome.unexpected : AttemptOutcome Unit)) 0
        { isOpen := false, failureCount := 0, lastFailureTime := 0 } 5 2).failuresRecorded
      = 0
    ∧ (executeWithRetry (fun _ => (AttemptOutcome.unexpected : AttemptOutcome Unit)) 0
        { isOpen := false, failureCount := 0, lastFailureTime := 0 } 5 2).cb.failureCount
      = 0
    ∧ (executeWithRetry (fun _ => (AttemptOutcome.unexpected : AttemptOutcome Unit)) 0
        { isOpen := false, failureCount := 0, lastFailureTime := 0 } 5 2).attempts = 5 := by
  norm_num [executeWithRetry, checkCircuitBreaker, retryLoop]

/-- C5 (amended): when every attempt raises an unexpected error (neither
rate-limit, network, nor permanent-exchange class) and the admission check
lets execution proceed, the attempt is retried with the network backoff
baseDelay * 2^attempt up to the 5-attempt budget and then surfaced as the
wrapped unexpected error — but NO failure is recorded against the circuit
breaker (the generic handler, unlike the spec's description, never feeds the
breaker), whose state is exactly what the admission check produced. -/
theorem c5_unexpected_error_retry {α : Type} (op : Nat → AttemptOutcome α)
    (now : ℚ) (cb cb1 : CircuitBreaker)
    (hop : ∀ i, op i = AttemptOutcome.unexpected)
    (hcb : checkCircuitBreaker now cb = BreakerCheck.proceed cb1) :
    (executeWithRetry op now cb 5 2).failuresRecorded = 0
    ∧ (executeWithRetry op now cb 5 2).cb = cb1
    ∧ (executeWithRetry op now cb 5 2).attempts = 5
    ∧ (executeWithRetry op now cb 5 2).sleeps
        = [2 * 2 ^ 0, 2 * 2 ^ 1, 2 * 2 ^ 2, 2 * 2 ^ 3]
    ∧ (executeWithRetry op now cb 5 2).result
        = Except.error (RetryError.unexpectedError 5) := by
  refine ⟨?_, ?_, ?_, ?_, ?_⟩ <;>
    · simp [executeWithRetry, hcb, retryLoop, hop]
      try norm_num

/-- C5 witness: concrete closed-breaker run of the always-unexpected
operation, showing zero recorded failures over 5 attempts. -/
theorem c5_witness :
    (executeWithRetry (fun _ => (AttemptOutcome.unexpected : AttemptOutcome Unit)) 3
        { isOpen := false, failureCount := 2, lastFailureTime := 1 } 5 2).failuresRecorded
      = 0
    ∧ (executeWithRetry (fun _ => (AttemptOutcome.unexpected : AttemptOutcome Unit)) 3
        { isOpen := false, failureCount := 2, lastFailureTime := 1 } 5 2).attempts = 5 :=
  have h := c5_unexpected_error_retry
    (fun _ => (AttemptOutcome.unexpected : AttemptOutcome Unit)) 3
    { isOpen := false, failureCount := 2, lastFailureTime := 1 }
    { isOpen := false, failureCount := 2, lastFailureTime := 1 }
    (fun _ => rfl) rfl
  ⟨h.1, h.2.2.1⟩

/-- C6, counterexample: fetch_ticker does NOT convert the symbol to wire form
— it passes `BTC/USDT` through unchanged (client.py line 305, "Use symbol
as-is"), so the claim that every market-data or trading operation submits the
BASE-QUOTE dash form is false as stated. -/
theorem c6_counterexample :
    fetchTickerWireSymbol "BTC/USDT".data = "BTC/USDT".data
    ∧ fetchTickerWireSymbol "BTC/USDT".data ≠ toWireSymbol "BTC/USDT".data
    ∧ toWireSymbol "BTC/USDT".data = "BTC-USDT".data := by
  refine ⟨rfl, ?_, by decide⟩
  decide

/-- C6 (amended): every market-data or trading operation except fetch_ticker
passes the BASE-QUOTE dash form (slash replaced by dash) to the underlying
wire call; fetch_ticker passes the BASE/QUOTE symbol unchanged; and
converting BTC/USDT to wire format and back yields the original string. -/
theorem c6_wire_symbol_conversion (s : List Char) :
    fetchOhlcvWireSymbol s = toWireSymbol s
    ∧ fetchOrderbookWireSymbol s = toWireSymbol s
    ∧ createMarketOrderWireSymbol s = toWireSymbol s
    ∧ createLimitOrderWireSymbol s = toWireSymbol s
    ∧ createStopLossOrderWireSymbol s = toWireSymbol s
    ∧ cancelOrderWireSymbol s = toWireSymbol s
    ∧ fetchOrderWireSymbol s = toWireSymbol s
    ∧ fetchOpenOrdersWireSymbol (some s) = some (toWireSymbol s)
    ∧ fetchTickerWireSymbol s = s
    ∧ fromWireSymbol (toWireSymbol "BTC/USDT".data) = "BTC/USDT".data :=
  ⟨rfl, rfl, rfl, rfl, rfl, rfl, rfl, rfl, rfl, by decide⟩

/-- C7: in a cycle over assets A, B, C where B's task raises and A's and C's
return error-free results, the gathered list is exactly A's result, an
error-tagged entry carrying B's symbol, asset id and error string, then C's
result — one error entry in total, and the cycle is a total function (never
aborted by the single failure). -/
theorem c7_failure_isolation (now : ℚ) (A B C : AssetRef)
    (ra rc : AnalysisRecord) (e : String)
    (run : AssetRef → Except String AnalysisRecord)
    (hA : run A = Except.ok ra) (hB : run B = Except.error e)
    (hC : run C = Except.ok rc)
    (hra : ra.error = none) (hrc : rc.error = none) :
    analyzeAllAssets now [A, B, C] run
      = [ra,
         { symbol := B.symbol, assetId := some B.id, timestamp := now,
           duration := none, signal := none, error := some e }, rc]
    ∧ List.countP (fun r => r.error.isSome)
        (analyzeAllAssets now [A, B, C] run) = 1 := by
  have h1 : analyzeAllAssets now [A, B, C] run
      = [ra,
         { symbol := B.symbol, assetId := some B.id, timestamp := now,
           duration := none, signal := none, error := some e }, rc] := by
    simp [analyzeAllAssets, hA, hB, hC]
  refine ⟨h1, ?_⟩
  rw [h1]
  simp [List.countP_cons, hra, hrc]

/-- C7 witness: a concrete three-asset cycle where the middle task raises
"boom" yields exactly one error-tagged entry. -/
theorem c7_witness :
    List.countP (fun r => r.error.isSome)
      (analyzeAllAssets 0
        [{ symbol := "AAA/USDT", id := "a1" }, { symbol := "BBB/USDT", id := "b1" },
         { symbol := "CCC/USDT", id := "c1" }]
        (fun a =>
          if a.id = "a1" then
            Except.ok { symbol := "AAA/USDT", assetId := some "a1", timestamp := 0,
                        duration := some 1, signal := none, error := none }
          else if a.id = "b1" then Except.error "boom"
          else
            Except.ok { symbol := "CCC/USDT", assetId := some "c1", timestamp := 0,
                        duration := some 1, signal := none, error := none })) = 1 :=
  (c7_failure_isolation 0
    { symbol := "AAA/USDT", id := "a1" } { symbol := "BBB/USDT", id := "b1" }
    { symbol := "CCC/USDT", id := "c1" }
    { symbol := "AAA/USDT", assetId := some "a1", timestamp := 0,
      duration := some 1, signal := none, error := none }
    { symbol := "CCC/USDT", assetId := some "c1", timestamp := 0,
      duration := some 1, signal := none, error := none }
    "boom" _ rfl rfl rfl rfl rfl).2

/-- C8, counterexample: in test mode the configured persistence threshold is
0.1 (0.3 outside test mode), and a BUY signal arriving with confidence 0.05 —
below both thresholds — is confidence-boosted by the persistence step itself
(to 0.35) and then stored once and broadcast once, so the claim that a signal
whose confidence is below the configured threshold reaches neither interface
is false as stated. -/
theorem c8_counterexample :
    persistAnalysisResult true false false { mm1 := 0, center := 0 }
        { signalType := SignalType.buy, confidence := 1/20 }
      = { signalsCreated := 1, broadcasts := 1 }
    ∧ ((1 : ℚ)/20 < 1/10) ∧ ((1 : ℚ)/20 < 3/10) := by
  refine ⟨?_, by norm_num, by norm_num⟩
  norm_num [persistAnalysisResult, persistSignalStep]
  decide

/-- C8 (amended): outside test mode (is_test_mode_active() false, the path
with the configured 0.3 threshold and no signal rewriting), a signal whose
type is neutral or whose confidence is below 0.3 is passed to neither the
persistence interface nor the broadcast interface, and a non-neutral signal
with confidence at or above 0.3 is passed to each exactly once. -/
theorem c8_persistence_threshold (forceSignals indicatorsNonempty : Bool)
    (spot : SpotIndicators) (sig : SignalData) :
    ((sig.signalType = SignalType.neutral ∨ sig.confidence < 3/10) →
      persistAnalysisResult false forceSignals indicatorsNonempty spot sig
        = { signalsCreated := 0, broadcasts := 0 })
    ∧ (sig.signalType ≠ SignalType.neutral → 3/10 ≤ sig.confidence →
      persistAnalysisResult false forceSignals indicatorsNonempty spot sig
        = { signalsCreated := 1, broadcasts := 1 }) := by
  simp only [persistAnalysisResult, persistSignalStep, Bool.false_eq_true, if_false]
  constructor
  · intro h
    split_ifs with hc
    · exfalso
      rcases h with h | h
      · exact hc.1 h
      · exact absurd hc.2 (not_le.mpr h)
    · rfl
  · intro h1 h2
    split_ifs with hc
    · rfl
    · exact absurd ⟨h1, h2⟩ hc

/-- C8 witness: outside test mode a BUY signal with confidence 0.5 is stored
once and broadcast once. -/
theorem c8_witness :
    persistAnalysisResult false false false { mm1 := 0, center := 0 }
        { signalType := SignalType.buy, confidence := 1/2 }
      = { signalsCreated := 1, broadcasts := 1 } :=
  (c8_persistence_threshold false false { mm1 := 0, center := 0 }
    { signalType := SignalType.buy, confidence := 1/2 }).2
    (by decide) (by norm_num)

/-- C9: every completed call of the single-asset analysis increments
total_analyses by exactly one and exactly one of successful_analyses or
failed_analyses, so the invariant total = successful + failed is
preserved. -/
theorem c9_stats_invariant (symbol assetId : String) (now duration : ℚ)
    (stats : AnalysisStats) (body : Except String SignalData)
    (hinv : stats.totalAnalyses = stats.successfulAnalyses + stats.failedAnalyses) :
    ((analyzeSingleAsset symbol assetId now duration stats body).1.totalAnalyses
        = (analyzeSingleAsset symbol assetId now duration stats body).1.successfulAnalyses
          + (analyzeSingleAsset symbol assetId now duration stats body).1.failedAnalyses)
    ∧ (analyzeSingleAsset symbol assetId now duration stats body).1.totalAnalyses
        = stats.totalAnalyses + 1
    ∧ (((analyzeSingleAsset symbol assetId now duration stats body).1.successfulAnalyses
          = stats.successfulAnalyses + 1
        ∧ (analyzeSingleAsset symbol assetId now duration stats body).1.failedAnalyses
          = stats.failedAnalyses)
      ∨ ((analyzeSingleAsset symbol assetId now duration stats body).1.failedAnalyses
          = stats.failedAnalyses + 1
        ∧ (analyzeSingleAsset symbol assetId now duration stats body).1.successfulAnalyses
          = stats.successfulAnalyses)) := by
  cases body with
  | ok sig =>
    simp only [analyzeSingleAsset]
    split_ifs <;> simp <;> omega
  | error e =>
    simp only [analyzeSingleAsset]
    simp
    omega

/-- C9 witness: from the initial statistics, one successful analysis yields
total = successful + failed = 1. -/
theorem c9_witness :
    (analyzeSingleAsset "BTC/USDT" "a1" 0 1 initialStats
        (Except.ok { signalType := SignalType.neutral, confidence := 0 })).1.totalAnalyses
      = (analyzeSingleAsset "BTC/USDT" "a1" 0 1 initialStats
        (Except.ok { signalType := SignalType.neutral, confidence := 0 })).1.successfulAnalyses
        + (analyzeSingleAsset "BTC/USDT" "a1" 0 1 initialStats
        (Except.ok { signalType := SignalType.neutral, confidence := 0 })).1.failedAnalyses :=
  (c9_stats_invariant "BTC/USDT" "a1" 0 1 initialStats
    (Except.ok { signalType := SignalType.neutral, confidence := 0 }) rfl).1

/-- C10: the on-demand single-symbol analysis never propagates an exception:
whenever the asset lookup fails, the analysis body raises, or the persistence
step raises, the returned dict still carries the requested symbol, the
timestamp, and an error string. -/
theorem c10_on_demand_never_raises (symbol : String) (now duration : ℚ)
    (lookup : Option String) (stats : AnalysisStats)
    (body : Except String SignalData) (persist : Except String Unit)
    (hfail : lookup = none ∨ (∃ e, body = Except.error e)
      ∨ (∃ e, persist = Except.error e)) :
    (analyzeSpecificSymbol symbol now duration lookup stats body persist).2.symbol = symbol
    ∧ (analyzeSpecificSymbol symbol now duration lookup stats body persist).2.timestamp = now
    ∧ ((analyzeSpecificSymbol symbol now duration lookup stats body persist).2.error).isSome
      = true := by
  rcases hfail with h | ⟨e, he⟩ | ⟨e, he⟩
  · subst h
    simp [analyzeSpecificSymbol, analyzeSpecificSymbolTry]
  · subst he
    cases lookup with
    | none => simp [analyzeSpecificSymbol, analyzeSpecificSymbolTry]
    | some aid =>
      by_cases hee : e = ""
      · subst hee
        cases persist with
        | ok u =>
          simp [analyzeSpecificSymbol, analyzeSpecificSymbolTry, analyzeSingleAsset]
        | error p =>
          simp [analyzeSpecificSymbol, analyzeSpecificSymbolTry, analyzeSingleAsset]
      · simp [analyzeSpecificSymbol, analyzeSpecificSymbolTry, analyzeSingleAsset, hee]
  · subst he
    cases lookup with
    | none => simp [analyzeSpecificSymbol, analyzeSpecificSymbolTry]
    | some aid =>
      cases body with
      | ok sig =>
        simp [analyzeSpecificSymbol, analyzeSpecificSymbolTry, analyzeSingleAsset]
      | error e2 =>
        by_cases he2 : e2 = ""
        · subst he2
          simp [analyzeSpecificSymbol, analyzeSpecificSymbolTry, analyzeSingleAsset]
        · simp [analyzeSpecificSymbol, analyzeSpecificSymbolTry, analyzeSingleAsset, he2]

/-- C10 witness: a symbol missing from the database yields the error dict
with the symbol and timestamp, not an exception. -/
theorem c10_witness :
    (analyzeSpecificSymbol "XXX/USDT" 0 1 none initialStats
        (Except.ok { signalType := SignalType.neutral, confidence := 0 })
        (Except.ok ())).2.symbol = "XXX/USDT"
    ∧ (analyzeSpecificSymbol "XXX/USDT" 0 1 none initialStats
        (Except.ok { signalType := SignalType.neutral, confidence := 0 })
        (Except.ok ())).2.timestamp = 0
    ∧ ((analyzeSpecificSymbol "XXX/USDT" 0 1 none initialStats
        (Except.ok { signalType := SignalType.neutral, confidence := 0 })
        (Except.ok ())).2.error).isSome = true :=
  c10_on_demand_never_raises "XXX/USDT" 0 1 none initialStats
    (Except.ok { signalType := SignalType.neutral, confidence := 0 })
    (Except.ok ()) (Or.inl rfl)

end BingX
